import Mathlib

/-!
Verification of the C-compiler front end (lexer and parser) against its
natural-language specification.  The Rust sources are shallowly embedded:
pure functions become Lean functions, in-place mutation becomes explicit
state passing, and code paths that panic are modelled with `Except String`
(the `error` case carrying the panic message).  Code of the repository that
is referenced but absent from the sources (keyword table, lexer state
helpers, number-type tables) is modelled from the specification text and
marked as such in its doc comment.
-/

namespace Ccomp

/-- The apostrophe character, kept as a one-character string for building
diagnostic messages. -/
def sq : String := String.singleton (Char.ofNat 39)

/-- Decidable equality for `Except`, used to evaluate the embedded fallible
functions on concrete inputs. -/
instance {α β : Type} [DecidableEq α] [DecidableEq β] : DecidableEq (Except α β) :=
  fun x y =>
    match x, y with
    | .error a, .error b =>
        if h : a = b then isTrue (by rw [h])
        else isFalse (by intro hc; injection hc; contradiction)
    | .ok a, .ok b =>
        if h : a = b then isTrue (by rw [h])
        else isFalse (by intro hc; injection hc; contradiction)
    | .error _, .ok _ => isFalse (by intro hc; exact Except.noConfusion hc)
    | .ok _, .error _ => isFalse (by intro hc; exact Except.noConfusion hc)

/-! ## Locations (`src/errors/location.rs`) -/

/-- Embedding of `Location`: the `(file, line, col)` triple. -/
structure Location where
  file : String
  line : Nat
  col : Nat
deriving Repr, DecidableEq

/-- Embedding of `Location::into_past` (`location.rs:20-25`): Rust code is
`col: self.col.checked_sub(offset).unwrap_or(1)`, i.e. the saturating value
`1` is used only when the subtraction overflows (`offset > col`); an exact
difference of `0` is kept as `0`. -/
def Location.into_past (l : Location) (offset : Nat) : Location :=
  { l with col := if offset ≤ l.col then l.col - offset else 1 }

/-- Embedding of `Location::incr_col`. -/
def Location.incr_col (l : Location) : Location :=
  { l with col := l.col + 1 }

/-- Embedding of `Location::incr_line`. -/
def Location.incr_line (l : Location) : Location :=
  { l with line := l.line + 1 }

/-! ## Diagnostics (`src/errors/compile.rs`) -/

/-- Embedding of `ErrorLevel`. -/
inductive ErrorLevel where
  | Warning
  | Error
  | Suggestion
deriving Repr, DecidableEq

/-- Embedding of `CompileError`: a diagnostic `(level, length, location,
message)`. -/
structure CompileError where
  err_lvl : ErrorLevel
  length : Nat
  location : Location
  message : String
deriving Repr, DecidableEq

/-- Embedding of `From<(Location, String, ErrorLevel)> for CompileError`
(`compile.rs:70-79`): the underline length defaults to `0`. -/
def CompileError.from3 (location : Location) (message : String)
    (err_lvl : ErrorLevel) : CompileError :=
  ⟨err_lvl, 0, location, message⟩

/-- Modelled from the spec: `Location::to_error` is not under `src/`; the
`to_error!` macro (`compile.rs:5-10`) shows it builds an `Error`-level
`CompileError` at the given location with length 0. -/
def Location.to_error (l : Location) (message : String) : CompileError :=
  CompileError.from3 l message ErrorLevel.Error

/-- Modelled from the spec: `Location::to_warning` is not under `src/`; the
`to_warning!` macro (`compile.rs:19-24`) shows it builds a `Warning`-level
`CompileError` at the given location with length 0. -/
def Location.to_warning (l : Location) (message : String) : CompileError :=
  CompileError.from3 l message ErrorLevel.Warning

/-- Modelled from the spec: `Location::to_suggestion` is not under `src/`;
per the spec a suggestion-level diagnostic is built (level `Suggestion`). -/
def Location.to_suggestion (l : Location) (message : String) : CompileError :=
  CompileError.from3 l message ErrorLevel.Suggestion

/-- Modelled from the spec: `Location::to_failure` is not under `src/`; it is
used for fatal number-parse diagnostics, hence `Error` level. -/
def Location.to_failure (l : Location) (message : String) : CompileError :=
  CompileError.from3 l message ErrorLevel.Error

/-- Embedding of `CompileError::is_error` (`compile.rs:50-52`). -/
def CompileError.is_error (e : CompileError) : Bool :=
  e.err_lvl = ErrorLevel.Error

/-- Embedding of `Res<T>` (`compile.rs:98-101`). -/
structure Res (T : Type) where
  errors : List CompileError
  result : T
deriving Repr, DecidableEq

/-- Embedding of `Res::unwrap_or_display` (`compile.rs:122-132`): the result
is returned when `errors` is empty; otherwise the diagnostics are displayed
and the process aborts via `panic!()`, modelled as `Except.error` carrying
the displayed diagnostics. -/
def Res.unwrap_or_display {T : Type} (r : Res T) : Except (List CompileError) T :=
  if r.errors.isEmpty then Except.ok r.result else Except.error r.errors

/-! ## Number parse results (`src/lexer/numbers/parse.rs`) -/

/-- Embedding of `OverParseRes<T>` (`parse.rs:17-28`). -/
inductive OverParseRes (T : Type) where
  | Err : CompileError → OverParseRes T
  | Overflow : OverParseRes T
  | Value : T → OverParseRes T
  | ValueErr : T → CompileError → OverParseRes T
  | ValueOverflow : T → OverParseRes T
deriving Repr, DecidableEq

/-- Embedding of `ParseRes<T>` (`parse.rs:128-135`). -/
inductive ParseRes (T : Type) where
  | Err : CompileError → ParseRes T
  | Value : T → ParseRes T
  | ValueErr : T → CompileError → ParseRes T
deriving Repr, DecidableEq

/-- Embedding of `OverParseRes::ignore_overflow` (`parse.rs:65-80`). -/
def OverParseRes.ignore_overflow {T : Type} (r : OverParseRes T)
    (value : String) (location : Location) : ParseRes T :=
  match r with
  | .ValueOverflow val =>
      ParseRes.ValueErr val
        (location.to_warning ("Overflow: " ++ value ++ " is too big in traditional number"))
  | .Overflow =>
      ParseRes.Err
        (location.to_error ("Overflow: " ++ value ++ " is too big in traditional number"))
  | .Value val => ParseRes.Value val
  | .Err compile_error => ParseRes.Err compile_error
  | .ValueErr val compile_error => ParseRes.ValueErr val compile_error

/-- Embedding of `OverParseRes::add_overflow` (`parse.rs:37-42`). -/
def OverParseRes.add_overflow {T : Type} (r : OverParseRes T) : OverParseRes T :=
  match r with
  | .Value val => .ValueOverflow val
  | other => other

/-! ## Number types (modelled) and the octal parser
(`src/lexer/numbers/base/octal.rs`) -/

/-- Modelled from the spec: `NumberType` (`numbers/types.rs` is not under
`src/`); the spec lists the C numeric types
`Int, Long, LongLong, UInt, ULong, ULongLong, Float, Double, LongDouble`. -/
inductive NumberType where
  | Int
  | Long
  | LongLong
  | UInt
  | ULong
  | ULongLong
  | Float
  | Double
  | LongDouble
deriving Repr, DecidableEq

/-- Modelled from the spec: `Number` (`numbers/types.rs` is not under
`src/`); each integer variant carries a value of the corresponding C type
width, represented here as an unbounded integer (the parsers only ever build
in-range values).  Float variants carry the literal digits, unused by the
claims below. -/
inductive Number where
  | Int : Int → Number
  | Long : Int → Number
  | LongLong : Int → Number
  | UInt : Int → Number
  | ULong : Int → Number
  | ULongLong : Int → Number
  | Float : String → Number
  | Double : String → Number
  | LongDouble : String → Number
deriving Repr, DecidableEq

/-- Modelled from the spec: the `ERR_PREFIX` constant (`numbers/types.rs`,
not under `src/`) prepended to number-parse diagnostics; its contents are
not observable in the claims below, so it is modelled as the empty string. -/
def err_prefix_msg : String := ""

/-- Maximum value of each C integer type (64-bit host, as in the sample). -/
def NumberType.max_val : NumberType → Option ℤ
  | .Int => some (2 ^ 31 - 1)
  | .Long => some (2 ^ 63 - 1)
  | .LongLong => some (2 ^ 63 - 1)
  | .UInt => some (2 ^ 32 - 1)
  | .ULong => some (2 ^ 64 - 1)
  | .ULongLong => some (2 ^ 64 - 1)
  | _ => none

/-- Wraps an integer value into the `Number` variant of the given type
(integer types only). -/
def NumberType.wrap : NumberType → ℤ → Option Number
  | .Int, v => some (Number.Int v)
  | .Long, v => some (Number.Long v)
  | .LongLong, v => some (Number.LongLong v)
  | .UInt, v => some (Number.UInt v)
  | .ULong, v => some (Number.ULong v)
  | .ULongLong, v => some (Number.ULongLong v)
  | _, _ => none

/-- Numeric value of a list of digits in the given radix (digits are assumed
valid for the radix). -/
def digits_value (radix : Nat) (l : List Char) : Nat :=
  l.foldl (fun acc ch => acc * radix + (Char.toNat ch - Char.toNat (Char.ofNat 48))) 0

/-- Modelled from the spec: the `parse_int_from_radix!` macro
(`numbers/macros.rs` is not under `src/`).  Per spec §4.3 step 4, an integer
that does not fit the chosen `NumberType` yields `ValueOverflow` carrying the
value saturated at the type maximum; a non-integer type yields the given
error message (here `"an octal must be an integer"` for radix 8). -/
def parse_int_from_radix (location : Location) (nb_type : NumberType)
    (literal : String) (msg : String) (radix : Nat) : OverParseRes Number :=
  match nb_type.max_val, nb_type.wrap with
  | some maxv, wrap =>
      let v : ℤ := Int.ofNat (digits_value radix literal.data)
      if v ≤ maxv then
        match wrap v with
        | some nb => OverParseRes.Value nb
        | none => OverParseRes.Err (location.to_failure msg)
      else
        match wrap maxv with
        | some nb => OverParseRes.ValueOverflow nb
        | none => OverParseRes.Err (location.to_failure msg)
  | none, _ => OverParseRes.Err (location.to_failure msg)

/-- Embedding of `to_oct_value` (`octal.rs:45-62`).  The Rust code first
checks `literal.chars().all(|ch| matches!(ch, '0'..='7'))`; on the failing
branch it runs `literal.chars().find(|ch| matches!(ch, '0'..='7'))` — i.e. it
searches for the first *valid* octal digit — and calls
`.expect("Exists according to line above")` on the result.  The `expect`
panic is modelled as `Except.error` with the panic message. -/
def to_oct_value (literal : String) (nb_type : NumberType)
    (location : Location) : Except String (OverParseRes Number) :=
  if literal.data.all (fun ch => decide (Char.ofNat 48 ≤ ch ∧ ch ≤ Char.ofNat 55)) then
    Except.ok (parse_int_from_radix location nb_type literal
      "an octal must be an integer" 8)
  else
    match literal.data.find? (fun ch => decide (Char.ofNat 48 ≤ ch ∧ ch ≤ Char.ofNat 55)) with
    | some first =>
        Except.ok (OverParseRes.Err (location.to_failure
          (err_prefix_msg ++ "a octal constant must only contain digits between " ++
           sq ++ "0" ++ sq ++ " and " ++ sq ++ "7" ++ sq ++
           ". Found invalid character " ++ sq ++ String.singleton first ++ sq ++ ".")))
    | none => Except.error "Exists according to line above"

/-! ## Claim theorems: C1, C2, C7, C9 -/

/-- Claim C1 (code bug): on the octal literal `08` (digit string `"8"`, as
produced after stripping the `0` prefix) the function `to_oct_value` does
*not* return an `OverParseRes::Err` diagnostic — it panics.  The digit
string contains no character in `'0'..'7'`, so the inverted `find` (which
searches for a *valid* digit to report as invalid) yields `None` and the
`expect` fires. -/
theorem to_oct_value_panics_on_08 :
    to_oct_value "8" NumberType.Int ⟨"main.c", 1, 1⟩ =
      Except.error "Exists according to line above" ∧
    ∀ res : OverParseRes Number,
      to_oct_value "8" NumberType.Int ⟨"main.c", 1, 1⟩ ≠ Except.ok res := by
  refine ⟨rfl, ?_⟩
  intro res h
  rw [show to_oct_value "8" NumberType.Int ⟨"main.c", 1, 1⟩ =
      Except.error "Exists according to line above" from rfl] at h
  exact Except.noConfusion h

/-- Claim C2 (code bug): `into_past` does not compute `max(col − k, 1)`.
At `col = 5`, `offset = 5` the checked subtraction succeeds with `0`, so the
result column is `0`, while the claimed value `max(5 − 5, 1)` is `1`; the
invariant `col ≥ 1` is violated. -/
theorem into_past_col_can_be_zero :
    (Location.into_past ⟨"main.c", 1, 5⟩ 5).col = 0 ∧
    max (5 - 5) 1 = 1 ∧
    ¬ 1 ≤ (Location.into_past ⟨"main.c", 1, 5⟩ 5).col := by
  decide

/-- Claim C7: `ignore_overflow` maps `ValueOverflow(v)` to
`ValueErr(v, w)` with `w` a `Warning`-level overflow diagnostic, `Overflow`
to `Err(e)` with `e` an `Error`-level diagnostic, and the remaining three
constructors to the corresponding `ParseRes` constructor unchanged. -/
theorem ignore_overflow_cases :
    ∀ (T : Type) (v : T) (e : CompileError) (lit : String) (loc : Location),
      ((OverParseRes.ValueOverflow v).ignore_overflow lit loc =
          ParseRes.ValueErr v
            (loc.to_warning ("Overflow: " ++ lit ++ " is too big in traditional number")) ∧
        (loc.to_warning ("Overflow: " ++ lit ++ " is too big in traditional number")).err_lvl =
          ErrorLevel.Warning) ∧
      ((OverParseRes.Overflow : OverParseRes T).ignore_overflow lit loc =
          ParseRes.Err
            (loc.to_error ("Overflow: " ++ lit ++ " is too big in traditional number")) ∧
        (loc.to_error ("Overflow: " ++ lit ++ " is too big in traditional number")).err_lvl =
          ErrorLevel.Error) ∧
      (OverParseRes.Value v).ignore_overflow lit loc = ParseRes.Value v ∧
      (OverParseRes.Err e : OverParseRes T).ignore_overflow lit loc = ParseRes.Err e ∧
      (OverParseRes.ValueErr v e).ignore_overflow lit loc = ParseRes.ValueErr v e := by
  intro T v e lit loc
  exact ⟨⟨rfl, rfl⟩, ⟨rfl, rfl⟩, rfl, rfl, rfl⟩

/-- Claim C9 (counterexample): a `Res` whose diagnostic list holds a single
`Warning`-level diagnostic does *not* have its computed result returned by
`unwrap_or_display`: the run aborts.  The Rust code tests
`self.errors.is_empty()`, not the diagnostic levels. -/
theorem unwrap_or_display_aborts_on_warning_only :
    (Res.mk [CompileError.from3 ⟨"main.c", 1, 1⟩ "overflow" ErrorLevel.Warning]
        (42 : Nat)).unwrap_or_display =
      Except.error
        [CompileError.from3 ⟨"main.c", 1, 1⟩ "overflow" ErrorLevel.Warning] ∧
    (Res.mk [CompileError.from3 ⟨"main.c", 1, 1⟩ "overflow" ErrorLevel.Warning]
        (42 : Nat)).unwrap_or_display ≠ Except.ok 42 := by
  constructor
  · rfl
  · intro h
    rw [show (Res.mk [CompileError.from3 ⟨"main.c", 1, 1⟩ "overflow" ErrorLevel.Warning]
        (42 : Nat)).unwrap_or_display = Except.error
        [CompileError.from3 ⟨"main.c", 1, 1⟩ "overflow" ErrorLevel.Warning] from rfl] at h
    exact Except.noConfusion h

/-- Claim C9 (amended): `is_error` holds for a diagnostic iff its level is
`Error`; but `unwrap_or_display` returns the computed result iff the
diagnostic list is *empty* — any non-empty list, even all warnings or
suggestions, makes the run display the diagnostics and abort. -/
theorem unwrap_or_display_iff_empty :
    (∀ e : CompileError, e.is_error = true ↔ e.err_lvl = ErrorLevel.Error) ∧
    (∀ (T : Type) (r : Res T),
      r.unwrap_or_display = Except.ok r.result ↔ r.errors = []) := by
  constructor
  · intro e
    simp [CompileError.is_error]
  · intro T r
    constructor
    · intro h
      by_contra hne
      have hempty : r.errors.isEmpty = false := by
        cases hr : r.errors with
        | nil => exact absurd hr hne
        | cons a l => simp [List.isEmpty]
      rw [Res.unwrap_or_display, hempty] at h
      simp at h
    · intro h
      rw [Res.unwrap_or_display, h]
      rfl

/-! ## The `special_chars.rs` lexer variant

`src/lexer/special_chars.rs` belongs to the repository variant whose state
type is `ParsingState` (file `lexer/lexing_state.rs`, not under `src/`).
Its definitions are embedded here in namespace `Sc`.  Rust `String::len()`
is the UTF-8 byte length, modelled by `rust_len`. -/

/-- Rust `String::len()`: the UTF-8 byte length. -/
def rust_len (s : String) : Nat := s.utf8ByteSize

namespace Sc

/-- Embedding of `EscapeSequence` (from `lexer/lexing_state.rs`, not under
`src/`; the four variants and their buffers are fixed by their uses in
`special_chars.rs`). -/
inductive EscapeSequence where
  | ShortUnicode : String → EscapeSequence
  | Unicode : String → EscapeSequence
  | Hexadecimal : String → EscapeSequence
  | Octal : String → EscapeSequence
deriving Repr, DecidableEq

/-- Modelled from the spec: `EscapeSequence::repr` (not under `src/`); the
diagnostics shown in the spec use `"unicode"` for both unicode flavours. -/
def EscapeSequence.repr : EscapeSequence → String
  | .ShortUnicode _ => "unicode"
  | .Unicode _ => "unicode"
  | .Hexadecimal _ => "hexadecimal"
  | .Octal _ => "octal"

/-- Modelled from the spec: `EscapeSequence::max_len` (not under `src/`);
the values match the `expect_max_length` calls in `special_chars.rs`:
4 for `\u`, 8 for `\U`, 3 for hex, 3 for octal. -/
def EscapeSequence.max_len : EscapeSequence → Nat
  | .ShortUnicode _ => 4
  | .Unicode _ => 8
  | .Hexadecimal _ => 3
  | .Octal _ => 3

/-- Modelled from the spec: `EscapeSequence::is_octal` (not under `src/`). -/
def EscapeSequence.is_octal : EscapeSequence → Bool
  | .Octal _ => true
  | _ => false

/-- The digit buffer of a sequence. -/
def EscapeSequence.value : EscapeSequence → String
  | .ShortUnicode v => v
  | .Unicode v => v
  | .Hexadecimal v => v
  | .Octal v => v

/-- Pushes a character onto the digit buffer of a sequence. -/
def EscapeSequence.push_val (seq : EscapeSequence) (ch : Char) : EscapeSequence :=
  match seq with
  | .ShortUnicode v => .ShortUnicode (v.push ch)
  | .Unicode v => .Unicode (v.push ch)
  | .Hexadecimal v => .Hexadecimal (v.push ch)
  | .Octal v => .Octal (v.push ch)

/-- Embedding of `EscapeStatus` (from `lexer/lexing_state.rs`, not under
`src/`): either no/one pending trivial escape, or an open sequence. -/
inductive EscapeStatus where
  | Trivial : Bool → EscapeStatus
  | Sequence : EscapeSequence → EscapeStatus
deriving Repr, DecidableEq

/-- Token values of this lexer variant (its token type is not under `src/`;
modelled from the spec token model). -/
inductive TokenValue where
  | Char : Char → TokenValue
  | Str : String → TokenValue
  | Ident : String → TokenValue
  | Number : Number → TokenValue
  | Symbol : String → TokenValue
deriving Repr, DecidableEq

/-- A token of this lexer variant: a location and a value. -/
structure Token where
  location : Location
  value : TokenValue
deriving Repr, DecidableEq

/-- Modelled from the spec: `Token::from_char` for this variant (not under
`src/`): a `Char` token at the given location. -/
def Token.from_char (ch : Char) (location : Location) : Token :=
  ⟨location, TokenValue.Char ch⟩

/-- Embedding of `ParsingState` (from `lexer/lexing_state.rs`, not under
`src/`; the fields are fixed by their uses in `special_chars.rs`): emitted
tokens, diagnostics, the literal buffer, the escape status, the two quote
flags and the pending operator-symbol buffer. -/
structure ParsingState where
  tokens : List Token
  errors : List CompileError
  literal : String
  escape : EscapeStatus
  single_quote : Bool
  double_quote : Bool
  symbols : List Char
deriving Repr, DecidableEq

/-- Initial (default) parsing state. -/
def ParsingState.init : ParsingState :=
  ⟨[], [], "", EscapeStatus.Trivial false, false, false, []⟩

/-- `ParsingState::push_err`. -/
def ParsingState.push_err (s : ParsingState) (e : CompileError) : ParsingState :=
  { s with errors := s.errors ++ [e] }

/-- `ParsingState::push_token`. -/
def ParsingState.push_token (s : ParsingState) (t : Token) : ParsingState :=
  { s with tokens := s.tokens ++ [t] }

/-- `ParsingState::is_empty`: whether the operator-symbol buffer is empty. -/
def ParsingState.is_empty (s : ParsingState) : Bool := s.symbols.isEmpty

/-- Value of a digit character in the given radix (`a`-`f`/`A`-`F` allowed
above 9), as in Rust `from_str_radix`. -/
def radix_digit_val (radix : Nat) (ch : Char) : Option Nat :=
  let v : Option Nat :=
    if ch.isDigit then some (ch.toNat - Char.toNat (Char.ofNat 48))
    else if Char.ofNat 97 ≤ ch ∧ ch ≤ Char.ofNat 102 then
      some (ch.toNat - Char.toNat (Char.ofNat 97) + 10)
    else if Char.ofNat 65 ≤ ch ∧ ch ≤ Char.ofNat 70 then
      some (ch.toNat - Char.toNat (Char.ofNat 65) + 10)
    else none
  match v with
  | some d => if d < radix then some d else none
  | none => none

/-- Rust `uN::from_str_radix`: fails on an empty string, an invalid digit,
or overflow past `bound` (the maximum of the target unsigned type). -/
def from_str_radix (radix bound : Nat) (s : String) : Option Nat :=
  if s.data.isEmpty then none
  else
    s.data.foldl
      (fun acc ch =>
        match acc, radix_digit_val radix ch with
        | some a, some d => if a * radix + d ≤ bound then some (a * radix + d) else none
        | _, _ => none)
      (some 0)

/-- Modelled from the spec: the `safe_parse_int!` macro (not under `src/`)
wraps an integer parse, turning a parse failure into an `Error`-level
diagnostic whose message starts with the given prefix. -/
def safe_parse_int (msg : String) (location : Location) (r : Option Nat) :
    Except CompileError Nat :=
  match r with
  | some n => Except.ok n
  | none => Except.error (location.to_error (msg ++ "invalid integer literal"))

/-- Embedding of `end_unicode_sequence` (`special_chars.rs:14-39`): parse the
buffer as hex, convert with `char::from_u32`; push the character on success,
push a diagnostic and fail otherwise.  Returns the new state and whether the
sequence ended successfully (`Ok(())` in Rust). -/
def end_unicode_sequence (s : ParsingState) (value : String)
    (location : Location) : ParsingState × Bool :=
  match safe_parse_int "Invalid escaped unicode number: " location
      (from_str_radix 16 (2 ^ 32 - 1) value) with
  | Except.error err => (s.push_err err, false)
  | Except.ok n =>
      if n.isValidChar then
        ({ s with literal := s.literal.push (Char.ofNat n) }, true)
      else
        (s.push_err (location.to_error
          ("Invalid escaped unicode number: " ++ value ++
           " is not a valid unicode character.")), false)

/-- Embedding of `expect_min_length` (`special_chars.rs:41-59`): if the
buffer is shorter than `size`, push an `Error` diagnostic (whose text always
says `4` digits, whatever `size` is) and fail. -/
def expect_min_length (s : ParsingState) (size : Nat) (value : String)
    (location : Location) (sequence : EscapeSequence) : ParsingState × Bool :=
  let len := rust_len value
  if len < size then
    (s.push_err (location.to_error
      ("Invalid escaped " ++ sequence.repr ++
       " number: must contain 4 digits, but found only " ++ toString len)), false)
  else (s, true)

/-- Embedding of `end_escape_sequence` (`special_chars.rs:65-132`).  The
result is `Except.error` on the `assert!`/`expect` panic paths; otherwise the
new state together with the Rust `Result<(), ()>` outcome (`true` = `Ok`).
Note the `?` early returns skip the final escape-status reset. -/
def end_escape_sequence (s : ParsingState) (location : Location) :
    Except String (ParsingState × Bool) :=
  match s.escape with
  | EscapeStatus.Trivial _ => Except.error "called get_unsafe_sequence on a non-sequence escape status"
  | EscapeStatus.Sequence sequence =>
    match sequence with
    | EscapeSequence.ShortUnicode value =>
        if rust_len value ≤ 4 then
          match expect_min_length s 4 value location sequence with
          | (s1, false) => Except.ok (s1, false)
          | (s1, true) =>
            match end_unicode_sequence s1 value location with
            | (s2, false) => Except.ok (s2, false)
            | (s2, true) => Except.ok ({ s2 with escape := EscapeStatus.Trivial false }, true)
        else Except.error "Never should have pushed here"
    | EscapeSequence.Unicode value =>
        if rust_len value ≤ 4 then
          Except.ok (s.push_err (location.to_error
            ("Invalid escaped unicode number: An escaped big unicode must contain 8 hexadecimal digits, found only " ++
             toString (rust_len value) ++ ". Did you mean to use lowercase \\u?")), false)
        else
          if rust_len value ≤ 8 then
            match expect_min_length s 8 value location sequence with
            | (s1, false) => Except.ok (s1, false)
            | (s1, true) =>
              match end_unicode_sequence s1 value location with
              | (s2, false) => Except.ok (s2, false)
              | (s2, true) => Except.ok ({ s2 with escape := EscapeStatus.Trivial false }, true)
          else Except.error "Never should have pushed here"
    | EscapeSequence.Hexadecimal value =>
        if rust_len value ≤ 3 then
          match expect_min_length s 2 value location sequence with
          | (s1, false) => Except.ok (s1, false)
          | (s1, true) =>
            match from_str_radix 16 255 value with
            | none => Except.error "We push only numeric so this doesn\x27t happen"
            | some n =>
                let s2 := { s1 with literal := s1.literal.push (Char.ofNat n) }
                Except.ok ({ s2 with escape := EscapeStatus.Trivial false }, true)
        else Except.error "Never should have pushed here"
    | EscapeSequence.Octal value =>
        if rust_len value ≤ 3 then
          match expect_min_length s 1 value location sequence with
          | (s1, false) => Except.ok (s1, false)
          | (s1, true) =>
            match safe_parse_int "Invalid octal escape sequence :" location
                (from_str_radix 8 (2 ^ 32 - 1) value) with
            | Except.error err =>
                Except.ok ({ (s1.push_err err) with escape := EscapeStatus.Trivial false }, true)
            | Except.ok n =>
                if rust_len value < 3 ∨ n ≤ 255 then
                  let s2 := { s1 with literal := s1.literal.push (Char.ofNat n) }
                  Except.ok ({ s2 with escape := EscapeStatus.Trivial false }, true)
                else
                  match value.data with
                  | a :: b :: c :: _ =>
                    match safe_parse_int "Invalid octal escape sequence: " location
                        (from_str_radix 8 255 (String.mk [a, b])) with
                    | Except.error err =>
                        Except.ok ({ (s1.push_err err) with
                                     escape := EscapeStatus.Trivial false }, true)
                    | Except.ok n2 =>
                        let s2 := { s1 with literal := (s1.literal.push (Char.ofNat n2)).push c }
                        Except.ok ({ s2 with escape := EscapeStatus.Trivial false }, true)
                  | _ => Except.error "len = 3"
        else Except.error "Never should have pushed here"

/-- Rust `char::is_ascii_hexdigit`. -/
def is_ascii_hexdigit (ch : Char) : Bool :=
  ch.isDigit ∨ (Char.ofNat 97 ≤ ch ∧ ch ≤ Char.ofNat 102) ∨
    (Char.ofNat 65 ≤ ch ∧ ch ≤ Char.ofNat 70)

/-- Rust `char::is_ascii_octdigit`. -/
def is_ascii_octdigit (ch : Char) : Bool :=
  Char.ofNat 48 ≤ ch ∧ ch ≤ Char.ofNat 55

/-- Embedding of `handle_escaped_sequence` (`special_chars.rs:201-214`): a
non-digit character closes the sequence (and falls through into the literal
on success); a digit is pushed, closing the sequence when it reaches its
maximum length. -/
def handle_escaped_sequence (ch : Char) (s : ParsingState)
    (location : Location) : Except String ParsingState :=
  match s.escape with
  | EscapeStatus.Trivial _ => Except.error "called get_unsafe_sequence on a non-sequence escape status"
  | EscapeStatus.Sequence sequence =>
    if ¬ is_ascii_hexdigit ch ∨ (sequence.is_octal ∧ ¬ is_ascii_octdigit ch) then
      match end_escape_sequence s location with
      | Except.error p => Except.error p
      | Except.ok (s1, true) => Except.ok { s1 with literal := s1.literal.push ch }
      | Except.ok (s1, false) => Except.ok s1
    else
      let sequence1 := sequence.push_val ch
      let s1 := { s with escape := EscapeStatus.Sequence sequence1 }
      if rust_len sequence1.value = sequence.max_len then
        match end_escape_sequence s1 location with
        | Except.error p => Except.error p
        | Except.ok (s2, _) => Except.ok s2
      else Except.ok s1

/-- Modelled from the spec: `try_to_operator` (from `lexer/lexing_state.rs`,
not under `src/`).  Per spec §4.5 the buffer greedily matches its 3-char
prefix, else its 2-char prefix, else emits the oldest single character; the
operator table below lists the multi-character operators named by the spec
(the spec does not enumerate the full table). -/
def try_to_operator (s : ParsingState) : Option (ParsingState × Nat × String) :=
  let three : List String := ["<<=", ">>=", "...", "->*"]
  let two : List String := ["<<", ">>", "==", "!=", "<=", ">=", "&&", "||",
    "+=", "-=", "*=", "/=", "%=", "&=", "|=", "^=", "->", "++", "--"]
  match s.symbols with
  | [] => none
  | l =>
    let p3 := String.mk (l.take 3)
    let p2 := String.mk (l.take 2)
    if l.length ≥ 3 ∧ p3 ∈ three then
      some ({ s with symbols := l.drop 3 }, 3, p3)
    else if l.length ≥ 2 ∧ p2 ∈ two then
      some ({ s with symbols := l.drop 2 }, 2, p2)
    else
      some ({ s with symbols := l.drop 1 }, 1, String.mk (l.take 1))

/-- Modelled from the spec: `Token::from_symbol` for this variant (not under
`src/`): a `Symbol` token at the location rewound by the symbol length. -/
def Token.from_symbol (symbol : String) (size : Nat) (location : Location) : Token :=
  ⟨location.into_past size, TokenValue.Symbol symbol⟩

/-- One pass of the `while` loop of `end_operator` (`special_chars.rs:151-166`),
with the remaining iteration count explicit (the Rust loop runs at most three
times: `idx <= 2` with `idx` incremented first). -/
def end_operator_loop : Nat → ParsingState → Location → Except String ParsingState
  | 0, s, _ => Except.ok s
  | fuel + 1, s, location =>
    if s.is_empty then Except.ok s
    else
      match try_to_operator s with
      | some (s1, size, symbol) =>
          end_operator_loop fuel (s1.push_token (Token.from_symbol symbol size location)) location
      | none => Except.error "This can\x27t happen, as lex_state is not empty!"

/-- Embedding of `end_operator` (`special_chars.rs:151-166`): drain the
symbol buffer in at most three greedy passes; the final `assert!` panics if
the buffer is still non-empty. -/
def end_operator (s : ParsingState) (location : Location) : Except String ParsingState :=
  match end_operator_loop 3 s location with
  | Except.error p => Except.error p
  | Except.ok s1 =>
      if s1.is_empty then Except.ok s1
      else Except.error "Not possible: executing 3 times the conversion, with stritcly decreasing number of non empty elements!"

/-- Modelled from the spec: `literal_to_number` (`lexer/numbers/mod.rs`, not
under `src/`).  Per spec §4.3 a literal is numeric when it starts with an
ASCII digit; the full radix/suffix algorithm is irrelevant to the claims
below (it is only ever reached here on empty or non-numeric literals), so
the value is computed for plain decimal integers only. -/
def literal_to_number (literal : String) : Option Number :=
  match literal.data with
  | [] => none
  | ch :: _ =>
      if ch.isDigit then
        some (Number.Int (Int.ofNat (digits_value 10 literal.data)))
      else none

/-- Modelled from the spec: `Token::from_identifier` for this variant (not
under `src/`): an `Ident` token (keyword classification is irrelevant to the
claims below). -/
def Token.from_identifier (literal : String) (location : Location) : Token :=
  ⟨location.into_past (rust_len literal), TokenValue.Ident literal⟩

/-- Modelled from the spec: `Token::from_number` for this variant. -/
def Token.from_number (nb : Number) (location : Location) : Token :=
  ⟨location, TokenValue.Number nb⟩

/-- Embedding of `end_literal` (`special_chars.rs:135-149`): a non-empty
literal buffer is emitted as a number token or an identifier token. -/
def end_literal (s : ParsingState) (location : Location) : ParsingState :=
  if s.literal.data.isEmpty then s
  else
    match literal_to_number s.literal with
    | none =>
        { s with literal := "" }.push_token (Token.from_identifier s.literal location)
    | some nb =>
        { s with literal := "" }.push_token (Token.from_number nb location)

/-- Embedding of `end_both` (`special_chars.rs:9-12`): `end_operator` then
`end_literal`. -/
def end_both (s : ParsingState) (location : Location) : Except String ParsingState :=
  match end_operator s location with
  | Except.error p => Except.error p
  | Except.ok s1 => Except.ok (end_literal s1 location)

/-- Embedding of `handle_single_quotes` (`special_chars.rs:260-270`):
closing a char literal `assert!`s that the literal buffer has byte-length
exactly 1; opening one first closes any pending token. -/
def handle_single_quotes (s : ParsingState) (location : Location) :
    Except String ParsingState :=
  if s.single_quote then
    if rust_len s.literal = 1 then
      match s.literal.data with
      | ch :: _ =>
          Except.ok { (s.push_token (Token.from_char ch location)) with single_quote := false }
      | [] => Except.error "len = 1"
    else Except.error "Never should have pushed"
  else
    match end_both s location with
    | Except.error p => Except.error p
    | Except.ok s1 => Except.ok { s1 with single_quote := true }

end Sc

/-! ## Claim theorems: C3, C4, C10 -/

/-- Claim C3: closing an octal escape sequence of 1–3 octal digits whose
value is at most `0o377` appends the single byte of the whole sequence to
the literal buffer; a 3-digit sequence whose value exceeds `0o377` appends
the byte of the first two digits followed by the third digit as a literal
character, never panicking.  `n` is the numeric value of the whole digit
buffer and `n2` the value of its first two digits, both obtained by the
embedded `from_str_radix`. -/
theorem end_escape_sequence_octal_spec :
    ∀ (tks : List Sc.Token) (errs : List CompileError) (lit : String)
      (sqf dqf : Bool) (syms : List Char) (v : String) (loc : Location) (n : Nat),
      Sc.from_str_radix 8 (2 ^ 32 - 1) v = some n →
      1 ≤ rust_len v → rust_len v ≤ 3 →
      ((rust_len v < 3 ∨ n ≤ 255) →
        Sc.end_escape_sequence
            ⟨tks, errs, lit, Sc.EscapeStatus.Sequence (Sc.EscapeSequence.Octal v), sqf, dqf, syms⟩ loc =
          Except.ok
            (⟨tks, errs, lit.push (Char.ofNat n), Sc.EscapeStatus.Trivial false, sqf, dqf, syms⟩, true)) ∧
      (rust_len v = 3 → 255 < n →
        ∀ (a b c : Char) (rest : List Char) (n2 : Nat),
          v.data = a :: b :: c :: rest →
          Sc.from_str_radix 8 255 (String.mk [a, b]) = some n2 →
          Sc.end_escape_sequence
              ⟨tks, errs, lit, Sc.EscapeStatus.Sequence (Sc.EscapeSequence.Octal v), sqf, dqf, syms⟩ loc =
            Except.ok
              (⟨tks, errs, (lit.push (Char.ofNat n2)).push c, Sc.EscapeStatus.Trivial false, sqf, dqf, syms⟩, true)) := by
  intro tks errs lit sqf dqf syms v loc n hn h1 h3
  have hmin : ¬ rust_len v < 1 := by omega
  constructor
  · intro hcond
    simp only [Sc.end_escape_sequence, Sc.expect_min_length, Sc.safe_parse_int,
      Sc.EscapeSequence.repr, hn, if_pos h3, if_neg hmin, if_pos hcond]
  · intro hlen3 hgt a b c rest n2 hdata hn2
    have hcond : ¬ (rust_len v < 3 ∨ n ≤ 255) := by omega
    simp only [Sc.end_escape_sequence, Sc.expect_min_length, Sc.safe_parse_int,
      Sc.EscapeSequence.repr, hn, if_pos h3, if_neg hmin, if_neg hcond, hdata, hn2]

/-- Witness for C3: the sequence `\456` (value `0o456 = 302 > 0o377`) pushes
the byte `0o45 = 37` then the literal character `6`; the sequence `\101`
(value `65 ≤ 0o377`) pushes the single byte `A`. -/
theorem end_escape_sequence_octal_spec_witness :
    Sc.end_escape_sequence
        ⟨[], [], "", Sc.EscapeStatus.Sequence (Sc.EscapeSequence.Octal "456"), true, false, []⟩
        ⟨"main.c", 1, 5⟩ =
      Except.ok
        (⟨[], [], (("".push (Char.ofNat 37)).push (Char.ofNat 54)),
          Sc.EscapeStatus.Trivial false, true, false, []⟩, true) ∧
    Sc.end_escape_sequence
        ⟨[], [], "", Sc.EscapeStatus.Sequence (Sc.EscapeSequence.Octal "101"), true, false, []⟩
        ⟨"main.c", 1, 5⟩ =
      Except.ok
        (⟨[], [], "".push (Char.ofNat 65),
          Sc.EscapeStatus.Trivial false, true, false, []⟩, true) := by
  constructor
  · have h := (end_escape_sequence_octal_spec [] [] "" true false [] "456"
      ⟨"main.c", 1, 5⟩ 302 (by decide) (by decide) (by decide)).2
        (by decide) (by decide) (Char.ofNat 52) (Char.ofNat 53) (Char.ofNat 54) [] 37
        (by decide) (by decide)
    exact h
  · have h := (end_escape_sequence_octal_spec [] [] "" true false [] "101"
      ⟨"main.c", 1, 5⟩ 65 (by decide) (by decide) (by decide)).1 (Or.inr (by decide))
    exact h

/-- Claim C4 (counterexample): a `\U` (big unicode) escape closed with 5
digits (here `00e99`) emits a diagnostic whose message is the generic
`"must contain 4 digits"` text; the digit `8` does not occur in the message,
so the error does not name the correct 8-digit form. -/
theorem big_unicode_five_digit_message :
    Sc.end_escape_sequence
        ⟨[], [], "", Sc.EscapeStatus.Sequence (Sc.EscapeSequence.Unicode "00e99"), false, true, []⟩
        ⟨"main.c", 1, 9⟩ =
      Except.ok
        (⟨[], [(⟨"main.c", 1, 9⟩ : Location).to_error
            "Invalid escaped unicode number: must contain 4 digits, but found only 5"],
          "", Sc.EscapeStatus.Sequence (Sc.EscapeSequence.Unicode "00e99"), false, true, []⟩, false) ∧
    ("Invalid escaped unicode number: must contain 4 digits, but found only 5").data.contains
        (Char.ofNat 56) = false := by
  exact ⟨rfl, by decide⟩

/-- Claim C4 (amended): a `\u` escape closed with fewer than 4 hex digits
emits exactly one `Error` diagnostic with message
`"Invalid escaped unicode number: must contain 4 digits, but found only N"`;
a `\U` escape closed with 4 or fewer digits emits one `Error` naming the
required 8 hexadecimal digits and suggesting lowercase `\u`; a `\U` escape
closed with 5 to 7 digits emits the generic 4-digit message instead (it does
not name the 8-digit form). -/
theorem end_escape_sequence_unicode_min_length :
    ∀ (tks : List Sc.Token) (errs : List CompileError) (lit : String)
      (sqf dqf : Bool) (syms : List Char) (v : String) (loc : Location),
      (rust_len v < 4 →
        Sc.end_escape_sequence
            ⟨tks, errs, lit, Sc.EscapeStatus.Sequence (Sc.EscapeSequence.ShortUnicode v), sqf, dqf, syms⟩ loc =
          Except.ok
            (⟨tks, errs ++ [loc.to_error
                ("Invalid escaped unicode number: must contain 4 digits, but found only " ++
                 toString (rust_len v))],
              lit, Sc.EscapeStatus.Sequence (Sc.EscapeSequence.ShortUnicode v), sqf, dqf, syms⟩, false) ∧
        (loc.to_error
            ("Invalid escaped unicode number: must contain 4 digits, but found only " ++
             toString (rust_len v))).err_lvl = ErrorLevel.Error) ∧
      (rust_len v ≤ 4 →
        Sc.end_escape_sequence
            ⟨tks, errs, lit, Sc.EscapeStatus.Sequence (Sc.EscapeSequence.Unicode v), sqf, dqf, syms⟩ loc =
          Except.ok
            (⟨tks, errs ++ [loc.to_error
                ("Invalid escaped unicode number: An escaped big unicode must contain 8 hexadecimal digits, found only " ++
                 toString (rust_len v) ++ ". Did you mean to use lowercase \\u?")],
              lit, Sc.EscapeStatus.Sequence (Sc.EscapeSequence.Unicode v), sqf, dqf, syms⟩, false) ∧
        (loc.to_error
            ("Invalid escaped unicode number: An escaped big unicode must contain 8 hexadecimal digits, found only " ++
             toString (rust_len v) ++ ". Did you mean to use lowercase \\u?")).err_lvl = ErrorLevel.Error) ∧
      (4 < rust_len v → rust_len v < 8 →
        Sc.end_escape_sequence
            ⟨tks, errs, lit, Sc.EscapeStatus.Sequence (Sc.EscapeSequence.Unicode v), sqf, dqf, syms⟩ loc =
          Except.ok
            (⟨tks, errs ++ [loc.to_error
                ("Invalid escaped unicode number: must contain 4 digits, but found only " ++
                 toString (rust_len v))],
              lit, Sc.EscapeStatus.Sequence (Sc.EscapeSequence.Unicode v), sqf, dqf, syms⟩, false)) := by
  intro tks errs lit sqf dqf syms v loc
  refine ⟨?_, ?_, ?_⟩
  · intro hlt
    have hle : rust_len v ≤ 4 := by omega
    refine ⟨?_, rfl⟩
    simp only [Sc.end_escape_sequence, Sc.expect_min_length, Sc.EscapeSequence.repr,
      if_pos hle, if_pos hlt]
    rfl
  · intro hle
    refine ⟨?_, rfl⟩
    simp only [Sc.end_escape_sequence, if_pos hle]
    rfl
  · intro h4 h8
    have hnle : ¬ rust_len v ≤ 4 := by omega
    have hle8 : rust_len v ≤ 8 := by omega
    simp only [Sc.end_escape_sequence, Sc.expect_min_length, Sc.EscapeSequence.repr,
      if_neg hnle, if_pos hle8, if_pos h8]
    rfl

/-- Witness for C4: instantiations at the spec example `\u00e` (3 digits),
at a `\U` escape with 3 digits, and at a `\U` escape with 5 digits. -/
theorem end_escape_sequence_unicode_min_length_witness :
    (Sc.end_escape_sequence
        ⟨[], [], "", Sc.EscapeStatus.Sequence (Sc.EscapeSequence.ShortUnicode "00e"), true, false, []⟩
        ⟨"main.c", 1, 7⟩ =
      Except.ok
        (⟨[], [(⟨"main.c", 1, 7⟩ : Location).to_error
            ("Invalid escaped unicode number: must contain 4 digits, but found only " ++ toString 3)],
          "", Sc.EscapeStatus.Sequence (Sc.EscapeSequence.ShortUnicode "00e"), true, false, []⟩, false)) ∧
    (Sc.end_escape_sequence
        ⟨[], [], "", Sc.EscapeStatus.Sequence (Sc.EscapeSequence.Unicode "00e"), true, false, []⟩
        ⟨"main.c", 1, 7⟩ =
      Except.ok
        (⟨[], [(⟨"main.c", 1, 7⟩ : Location).to_error
            ("Invalid escaped unicode number: An escaped big unicode must contain 8 hexadecimal digits, found only " ++
             toString 3 ++ ". Did you mean to use lowercase \\u?")],
          "", Sc.EscapeStatus.Sequence (Sc.EscapeSequence.Unicode "00e"), true, false, []⟩, false)) ∧
    (Sc.end_escape_sequence
        ⟨[], [], "", Sc.EscapeStatus.Sequence (Sc.EscapeSequence.Unicode "00e99"), true, false, []⟩
        ⟨"main.c", 1, 9⟩ =
      Except.ok
        (⟨[], [(⟨"main.c", 1, 9⟩ : Location).to_error
            ("Invalid escaped unicode number: must contain 4 digits, but found only " ++ toString 5)],
          "", Sc.EscapeStatus.Sequence (Sc.EscapeSequence.Unicode "00e99"), true, false, []⟩, false)) := by
  refine ⟨?_, ?_, ?_⟩
  · exact ((end_escape_sequence_unicode_min_length [] [] "" true false [] "00e"
      ⟨"main.c", 1, 7⟩).1 (by decide)).1
  · exact ((end_escape_sequence_unicode_min_length [] [] "" true false [] "00e"
      ⟨"main.c", 1, 7⟩).2.1 (by decide)).1
  · exact (end_escape_sequence_unicode_min_length [] [] "" true false [] "00e99"
      ⟨"main.c", 1, 9⟩).2.2 (by decide) (by decide)

/-- Claim C10: when `handle_single_quotes` closes a char literal (the
single-quote flag is set) it requires the literal buffer to have (byte)
length exactly 1, emitting the char token then; any other buffer length
panics on the `assert!`.  In particular the two-character input `''` (two
successive quotes starting from the initial state, with an empty buffer in
between) panics instead of producing a diagnostic. -/
theorem handle_single_quotes_assert :
    (∀ (s : Sc.ParsingState) (loc : Location) (ch : Char) (rest : List Char),
      s.single_quote = true → rust_len s.literal = 1 → s.literal.data = ch :: rest →
      Sc.handle_single_quotes s loc =
        Except.ok { (s.push_token (Sc.Token.from_char ch loc)) with single_quote := false }) ∧
    (∀ (s : Sc.ParsingState) (loc : Location),
      s.single_quote = true → rust_len s.literal ≠ 1 →
      Sc.handle_single_quotes s loc = Except.error "Never should have pushed") ∧
    ((do
        let s1 ← Sc.handle_single_quotes Sc.ParsingState.init ⟨"main.c", 1, 1⟩
        Sc.handle_single_quotes s1 ⟨"main.c", 1, 2⟩) =
      Except.error "Never should have pushed") := by
  refine ⟨?_, ?_, ?_⟩
  · intro s loc ch rest hq hlen hdata
    simp only [Sc.handle_single_quotes, hq, if_true, if_pos hlen, hdata]
  · intro s loc hq hlen
    simp only [Sc.handle_single_quotes, hq, if_true, if_neg hlen]
  · rfl

/-- Witness for C10: closing with the one-byte buffer `"a"` emits a char
token; closing with the empty buffer (the `''` case) panics. -/
theorem handle_single_quotes_assert_witness :
    Sc.handle_single_quotes
        ⟨[], [], "a", Sc.EscapeStatus.Trivial false, true, false, []⟩ ⟨"main.c", 1, 3⟩ =
      Except.ok
        (⟨[Sc.Token.from_char (Char.ofNat 97) ⟨"main.c", 1, 3⟩], [], "a",
          Sc.EscapeStatus.Trivial false, false, false, []⟩) ∧
    Sc.handle_single_quotes
        ⟨[], [], "", Sc.EscapeStatus.Trivial false, true, false, []⟩ ⟨"main.c", 1, 2⟩ =
      Except.error "Never should have pushed" := by
  constructor
  · exact handle_single_quotes_assert.1
      ⟨[], [], "a", Sc.EscapeStatus.Trivial false, true, false, []⟩ ⟨"main.c", 1, 3⟩
      (Char.ofNat 97) [] rfl (by decide) (by decide)
  · exact handle_single_quotes_assert.2.1
      ⟨[], [], "", Sc.EscapeStatus.Trivial false, true, false, []⟩ ⟨"main.c", 1, 2⟩
      rfl (by decide)

/-! ## The `lex_content.rs` / `types/tokens.rs` lexer variant

`src/lexer/lex_content.rs` and `src/lexer/types/tokens.rs` belong to the
repository variant whose state module is `lexer/state` (not under `src/`).
Its definitions are embedded here in namespace `St`. -/

namespace St

/-- Embedding of `Ident` (`tokens.rs:22-81`): a wrapped string. -/
structure Ident where
  val : String
deriving Repr, DecidableEq

/-- `Ident::contains` with a `char` pattern. -/
def Ident.contains (i : Ident) (pat : Char) : Bool := i.val.data.contains pat

/-- `Ident::first` (`tokens.rs:32-34`). -/
def Ident.first (i : Ident) : Option Char := i.val.data.head?

/-- `Ident::is_number` (`tokens.rs:42-44`): the first character (or `x` for
an empty string) is an ASCII digit. -/
def Ident.is_number (i : Ident) : Bool := (i.first.getD (Char.ofNat 120)).isDigit

/-- `Ident::last_is_exp` (`tokens.rs:47-54`). -/
def Ident.last_is_exp (i : Ident) : Bool :=
  i.is_number &&
    match i.val.data.getLast? with
    | some c =>
        if c = Char.ofNat 112 ∨ c = Char.ofNat 80 then i.val.data.take 2 = ['0', 'x']
        else if c = Char.ofNat 101 ∨ c = Char.ofNat 69 then ¬ i.val.data.take 2 = ['0', 'x']
        else false
    | none => false

/-- `Ident::push`. -/
def Ident.push (i : Ident) (ch : Char) : Ident := ⟨i.val.push ch⟩

/-- `Ident::len`: Rust byte length. -/
def Ident.len (i : Ident) : Nat := rust_len i.val

/-- Modelled from the spec: the `Keyword` enum (`lexer/types/keywords.rs` is
not under `src/`); a representative part of the closed C23 keyword set named
by the spec (the claims below only exercise `Bool`). -/
inductive Keyword where
  | Bool
  | Int
  | If
  | Else
  | While
  | Return
  | Sizeof
  | True
  | False
  | Nullptr
  | StaticAssert
  | ThreadLocal
  | Alignof
  | Struct
deriving Repr, DecidableEq

/-- Modelled from the spec: `TryKeyword` (`lexer/types/keywords.rs` is not
under `src/`); the three outcomes used by `Token::from_identifier`
(`tokens.rs:113-131`): a plain keyword, a deprecated C11 form, or not a
keyword. -/
inductive TryKeyword where
  | Success : Keyword → TryKeyword
  | Deprecated : Keyword → TryKeyword
  | Failure : TryKeyword
deriving Repr, DecidableEq

/-- Modelled from the spec: `Keyword::from_value_or_res` (not under `src/`).
Per spec §4.5 an identifier is matched against the keyword table, and
deprecated C forms such as `_Bool` are translated to their C23 equivalents
(`bool`) with a deprecation diagnostic. -/
def Keyword.from_value_or_res (value : String) : TryKeyword :=
  if value = "bool" then .Success .Bool
  else if value = "int" then .Success .Int
  else if value = "if" then .Success .If
  else if value = "else" then .Success .Else
  else if value = "while" then .Success .While
  else if value = "return" then .Success .Return
  else if value = "sizeof" then .Success .Sizeof
  else if value = "true" then .Success .True
  else if value = "false" then .Success .False
  else if value = "nullptr" then .Success .Nullptr
  else if value = "static_assert" then .Success .StaticAssert
  else if value = "thread_local" then .Success .ThreadLocal
  else if value = "alignof" then .Success .Alignof
  else if value = "struct" then .Success .Struct
  else if value = "_Bool" then .Deprecated .Bool
  else if value = "_Static_assert" then .Deprecated .StaticAssert
  else if value = "_Thread_local" then .Deprecated .ThreadLocal
  else if value = "_Alignof" then .Deprecated .Alignof
  else .Failure

/-- Embedding of `TokenValue` (`tokens.rs:194-258`); the `Symbol` enum is
not under `src/`, so symbols carry their lexeme. -/
inductive TokenValue where
  | Char : Char → TokenValue
  | Ident : String → TokenValue
  | Keyword : Keyword → TokenValue
  | Number : Number → TokenValue
  | Str : String → TokenValue
  | Symbol : String → TokenValue
deriving Repr, DecidableEq

/-- Embedding of `Token` (`tokens.rs:84-92`). -/
structure Token where
  location : Location
  value : TokenValue
deriving Repr, DecidableEq

/-- Modelled from the spec: `Location::into_past_with_length` (not under
`src/`); per spec §4.1/§9 a token's stored location is the current location
rewound by the token length, annotating the token start. -/
def into_past_with_length (l : Location) (len : Nat) : Location :=
  l.into_past len

/-- Embedding of `LexingData` (`lexer/types/data.rs`, not under `src/`;
fields fixed by the uses in `lex_content.rs`): emitted tokens, diagnostics
and the line-comment end-of-line flag. -/
structure LexingData where
  tokens : List Token
  errors : List CompileError
  end_line : Bool
deriving Repr, DecidableEq

/-- The default (initial) lexing data. -/
def LexingData.init : LexingData := ⟨[], [], false⟩

/-- `LexingData::push_token`. -/
def LexingData.push_token (d : LexingData) (t : Token) : LexingData :=
  { d with tokens := d.tokens ++ [t] }

/-- `LexingData::push_err`. -/
def LexingData.push_err (d : LexingData) (e : CompileError) : LexingData :=
  { d with errors := d.errors ++ [e] }

/-- `LexingData::set_end_line`. -/
def LexingData.set_end_line (d : LexingData) : LexingData :=
  { d with end_line := true }

/-- `LexingData::is_end_line`. -/
def LexingData.is_end_line (d : LexingData) : Bool := d.end_line

/-- `LexingData::newline`: resets the end-of-line flag for the next line. -/
def LexingData.newline (d : LexingData) : LexingData :=
  { d with end_line := false }

/-- The `new_keyword` computation of `Token::from_identifier`
(`tokens.rs:116-127`): iterate over `char_indices` (byte positions),
dropping the character at byte index 0, lowercasing the one at byte index 1
and keeping the rest. -/
def new_keyword_of (value : String) : String :=
  String.mk
    (value.data.foldl
      (fun (acc : List Char × Nat) ch =>
        let out := acc.1
        let idx := acc.2
        let out1 :=
          if idx = 0 then out
          else if idx = 1 then out ++ [ch.toLower]
          else out ++ [ch]
        (out1, idx + ch.utf8Size))
      ([], 0)).1

/-- Embedding of `Token::from_identifier` (`tokens.rs:106-137`): classify
the identifier against the keyword table; a deprecated keyword pushes one
deprecation warning (at the identifier start, i.e. the location rewound by
the identifier length) and still yields the keyword token. -/
def Token.from_identifier (lex_data : LexingData) (literal : Ident)
    (location : Location) : LexingData × Token :=
  let len := literal.len
  let value := literal.val
  match Keyword.from_value_or_res value with
  | TryKeyword.Success keyword =>
      (lex_data, ⟨into_past_with_length location len, TokenValue.Keyword keyword⟩)
  | TryKeyword.Deprecated keyword =>
      let new_keyword := new_keyword_of value
      (lex_data.push_err ((into_past_with_length location len).to_warning
          ("Underscore operators are deprecated since C23. Consider using the new keyword: " ++
           new_keyword)),
        ⟨into_past_with_length location len, TokenValue.Keyword keyword⟩)
  | TryKeyword.Failure =>
      (lex_data, ⟨into_past_with_length location len, TokenValue.Ident value⟩)

/-- Embedding of `Token::from_symbol` (`tokens.rs:159-164`). -/
def Token.from_symbol (symbol : String) (size : Nat) (location : Location) : Token :=
  ⟨into_past_with_length location size, TokenValue.Symbol symbol⟩

/-- Embedding of `Token::from_char` (`tokens.rs:96-101`). -/
def Token.from_char (ch : Char) (location : Location) : Token :=
  ⟨into_past_with_length location 1, TokenValue.Char ch⟩

/-- Alias for `Char`, used where the `LexingState` namespace would capture
the name. -/
abbrev Chr := Char

/-- Rust `str::trim_end`: the string without its trailing whitespace. -/
def trim_end (s : String) : String :=
  String.mk (s.data.reverse.dropWhile Char.isWhitespace).reverse

/-- Embedding of `CommentState` (from `lexer/state`, not under `src/`; the
three variants are fixed by their uses in `lex_content.rs`). -/
inductive CommentState where
  | True
  | Star
  | False
deriving Repr, DecidableEq

/-- Modelled from the spec: `SymbolState` (from `lexer/state`, not under
`src/`): the up-to-three pending operator characters (spec §4.5). -/
structure SymbolState where
  chars : List Char
deriving Repr, DecidableEq

/-- `SymbolState::new`. -/
def SymbolState.new (ch : Char) : SymbolState := ⟨[ch]⟩

/-- `SymbolState::last`. -/
def SymbolState.last (s : SymbolState) : Option Char := s.chars.getLast?

/-- Removes the most recently pushed character. -/
def SymbolState.clear_last (s : SymbolState) : SymbolState := ⟨s.chars.dropLast⟩

/-- Modelled from the spec: one greedy step of the symbol buffer (spec
§4.5): accept the 3-character prefix as a known operator, else the
2-character prefix, else emit the oldest single character.  The multi-char
operator tables list the operators named by the spec (the spec does not
enumerate the full table). -/
def symbol_take (l : List Char) : (Nat × String) × List Char :=
  let three : List String := ["<<=", ">>=", "...", "->*"]
  let two : List String := ["<<", ">>", "==", "!=", "<=", ">=", "&&", "||",
    "+=", "-=", "*=", "/=", "%=", "&=", "|=", "^=", "->", "++", "--"]
  match l with
  | [] => ((0, ""), [])
  | _ =>
    let p3 := String.mk (l.take 3)
    let p2 := String.mk (l.take 2)
    if l.length ≥ 3 ∧ p3 ∈ three then ((3, p3), l.drop 3)
    else if l.length ≥ 2 ∧ p2 ∈ two then ((2, p2), l.drop 2)
    else ((1, String.mk (l.take 1)), l.drop 1)

/-- Modelled from the spec: `SymbolState::push` (spec §4.5): with fewer than
three pending characters the new one is buffered; otherwise the buffer is
greedily reduced, emitting one operator. -/
def SymbolState.push (s : SymbolState) (ch : Char) :
    SymbolState × Option (Nat × String) × Option String :=
  if s.chars.length < 3 then (⟨s.chars ++ [ch]⟩, none, none)
  else
    let r := symbol_take s.chars
    (⟨r.2 ++ [ch]⟩, some r.1, none)

/-- Embedding of `LexingState` (from `lexer/state`, not under `src/`; the
variants are those listed by spec §3 and used by `lex_content.rs`). -/
inductive LexingState where
  | StartOfLine
  | Identifier : Ident → LexingState
  | Symbols : SymbolState → LexingState
  | Char : Option Char → LexingState
  | Str : String → LexingState
  | Comment : CommentState → LexingState
deriving Repr, DecidableEq

/-- Embedding of `EscapeState` (from `lexer/state`, not under `src/`):
no escape, a pending `\`, or an open escape sequence. -/
inductive EscapeState where
  | False
  | Single
  | Sequence : Sc.EscapeSequence → EscapeState
deriving Repr, DecidableEq

/-- `state.symbol().and_then(SymbolState::last)` of `lex_content.rs`. -/
def LexingState.symbol_last (st : LexingState) : Option Chr :=
  match st with
  | .Symbols s => s.last
  | _ => none

/-- `LexingState::clear_last_symbol`. -/
def LexingState.clear_last_symbol : LexingState → LexingState
  | .Symbols s => .Symbols s.clear_last
  | st => st

/-- Whether the state is a string literal. -/
def LexingState.is_str : LexingState → Bool
  | .Str _ => true
  | _ => false

/-- Whether the state is a char literal. -/
def LexingState.is_char : LexingState → Bool
  | .Char _ => true
  | _ => false

/-- Modelled from the spec: `LexingState::repr` (not under `src/`), the
human-readable state name used in diagnostics. -/
def LexingState.repr : LexingState → String
  | .StartOfLine => "start of line"
  | .Identifier _ => "identifier"
  | .Symbols _ => "symbols"
  | .Char _ => "char"
  | .Str _ => "string"
  | .Comment _ => "comment"

/-- Whether an escape is pending (`Single` or `Sequence`). -/
def EscapeState.is_active : EscapeState → Bool
  | .False => false
  | _ => true

/-- The simple one-character escape table of spec §4.4. -/
def simple_escape (ch : Char) : Option Char :=
  if ch = Char.ofNat 48 then some (Char.ofNat 0)
  else if ch = Char.ofNat 97 then some (Char.ofNat 7)
  else if ch = Char.ofNat 98 then some (Char.ofNat 8)
  else if ch = Char.ofNat 116 then some (Char.ofNat 9)
  else if ch = Char.ofNat 110 then some (Char.ofNat 10)
  else if ch = Char.ofNat 118 then some (Char.ofNat 11)
  else if ch = Char.ofNat 102 then some (Char.ofNat 12)
  else if ch = Char.ofNat 114 then some (Char.ofNat 13)
  else if ch = Char.ofNat 101 then some (Char.ofNat 27)
  else if ch = Char.ofNat 34 then some (Char.ofNat 34)
  else if ch = Char.ofNat 39 then some (Char.ofNat 39)
  else if ch = Char.ofNat 63 then some (Char.ofNat 63)
  else if ch = Char.ofNat 92 then some (Char.ofNat 92)
  else none

/-- Modelled from the spec: `handle_escape` (from `lexer/state`, not under
`src/`).  Per spec §4.4: after a pending `\`, a simple escape yields its
control character, `u`/`U`/`x`/`h` open a sequence, a digit opens an octal
sequence, anything else is an error; inside a sequence, digits extend the
buffer (closing at maximum length) and other characters close it early. -/
def handle_escape (ch : Char) (d : LexingData) (esc : EscapeState)
    (loc : Location) : LexingData × EscapeState × Option Char :=
  match esc with
  | .False => (d, esc, none)
  | .Single =>
    (match simple_escape ch with
     | some c => (d, esc, some c)
     | none =>
        if ch = Char.ofNat 117 then (d, .Sequence (.ShortUnicode ""), none)
        else if ch = Char.ofNat 85 then (d, .Sequence (.Unicode ""), none)
        else if ch = Char.ofNat 120 ∨ ch = Char.ofNat 104 then
          (d, .Sequence (.Hexadecimal ""), none)
        else if ch.isDigit then (d, .Sequence (.Octal (String.singleton ch)), none)
        else
          (d.push_err (loc.to_error ("character " ++ sq ++ String.singleton ch ++ sq ++
            " cannot be escaped")), .False, none))
  | .Sequence seq =>
    let close : String → LexingData × EscapeState × Option Char := fun value =>
      match Sc.from_str_radix (if seq.is_octal then 8 else 16) (2 ^ 32 - 1) value with
      | some n =>
          if n.isValidChar then (d, .False, some (Char.ofNat n))
          else (d.push_err (loc.to_error "invalid escape sequence value"), .False, none)
      | none => (d.push_err (loc.to_error "invalid escape sequence"), .False, none)
    if Sc.is_ascii_hexdigit ch ∧ (¬ seq.is_octal ∨ Sc.is_ascii_octdigit ch) then
      let seq1 := seq.push_val ch
      if rust_len seq1.value = seq.max_len then close seq1.value
      else (d, .Sequence seq1, none)
    else close seq.value

/-- Drains the symbol buffer greedily (at most three passes, spec §4.5),
pushing the symbol tokens. -/
def drain_symbols : Nat → List Char → Location → LexingData → LexingData
  | 0, _, _, d => d
  | _ + 1, [], _, d => d
  | fuel + 1, l, loc, d =>
      let r := symbol_take l
      drain_symbols fuel r.2 loc (d.push_token (Token.from_symbol r.1.2 r.1.1 loc))

/-- Modelled from the spec: `end_current` (from `lexer/state/api.rs`, not
under `src/`): closes the pending token of the current state — an identifier
becomes a number token (spec §4.3; simplified to decimal integers, which no
claim exercises) or goes through `Token::from_identifier`; a symbol buffer
is drained; an unclosed char/string literal is a lex error; comments are
left open.  Every closing state resets to `StartOfLine`. -/
def end_current (st : LexingState) (d : LexingData) (loc : Location) :
    LexingData × LexingState :=
  match st with
  | .StartOfLine => (d, st)
  | .Comment c => (d, .Comment c)
  | .Identifier ident =>
      if ident.is_number then
        (d.push_token ⟨into_past_with_length loc ident.len,
          TokenValue.Number (Number.Int (Int.ofNat (digits_value 10 ident.val.data)))⟩,
          .StartOfLine)
      else
        let r := Token.from_identifier d ident loc
        (r.1.push_token r.2, .StartOfLine)
  | .Symbols s => (drain_symbols 3 s.chars loc d, .StartOfLine)
  | .Char _ => (d.push_err (loc.to_error "unclosed char literal"), .StartOfLine)
  | .Str _ => (d.push_err (loc.to_error "unclosed string literal"), .StartOfLine)

/-- The operator characters of `lex_char` (`lex_content.rs:101-106`). -/
def op_chars : List Char :=
  ['(', ')', '[', ']', Char.ofNat 123, Char.ofNat 125, '~', '!', '*', '&', '%',
   '/', '>', '<', '=', '|', '^', ',', '?', ':', ';', '.', '+', '-']

/-- Embedding of `lex_char` (`lex_content.rs:11-152`): one transition of the
character-driven state machine, dispatching on `(char, state, escape)` in
the source arm order.  The two `panic!` arms are modelled as `Except.error`. -/
def lex_char (ch : Char) (location : Location) (lex_data : LexingData)
    (lex_state : LexingState) (escape_state : EscapeState) (eol : Bool) :
    Except String (LexingData × LexingState × EscapeState) :=
  if lex_state = .StartOfLine ∧ ch.isWhitespace then
    .ok (lex_data, lex_state, escape_state)
  else if ch = '/' ∧ lex_state = .Comment .Star then
    .ok (lex_data, .Comment .False, escape_state)
  else if ch = '*' ∧ lex_state = .Comment .True then
    .ok (lex_data, .Comment .Star, escape_state)
  else if lex_state = .Comment .True then .ok (lex_data, lex_state, escape_state)
  else if lex_state = .Comment .Star then .ok (lex_data, .Comment .True, escape_state)
  else if (lex_state = .Char none ∨ lex_state.is_str) ∧ escape_state.is_active then
    match handle_escape ch lex_data escape_state location with
    | (d1, _, some escaped) =>
        (match lex_state with
         | .Char none => .ok (d1, .Char (some escaped), .False)
         | .Str val => .ok (d1, .Str (val.push escaped), .False)
         | _ => .error "this can\x27t happen, see match above")
    | (d1, esc1, none) => .ok (d1, lex_state, esc1)
  else if escape_state.is_active then
    .error "Can\x27t happen because error raised on escape creation if wrong state."
  else if ch = '*' ∧ lex_state.symbol_last = some '/' then
    let r := end_current lex_state.clear_last_symbol lex_data location
    .ok (r.1, .Comment .True, escape_state)
  else if ch = Char.ofNat 92 ∧ (lex_state = .Char none ∨ lex_state.is_str) then
    .ok (lex_data, lex_state, .Single)
  else if ch = Char.ofNat 92 ∧ eol then .ok (lex_data, lex_state, .Single)
  else if ch = Char.ofNat 92 then
    .ok (lex_data.push_err (location.to_error
      ("Escape characters are only authorised in strings or chars, not in " ++
       sq ++ lex_state.repr ++ sq ++ " context.")), lex_state, escape_state)
  else if ch = Char.ofNat 39 ∧ lex_state.is_char then
    let r := end_current lex_state lex_data location
    .ok (r.1, r.2, escape_state)
  else if ch = Char.ofNat 39 ∧ ¬ lex_state.is_str then
    let r := end_current lex_state lex_data location
    .ok (r.1, .Char none, escape_state)
  else if ch = Char.ofNat 34 ∧ lex_state.is_str then
    let r := end_current lex_state lex_data location
    .ok (r.1, r.2, escape_state)
  else if ch = Char.ofNat 34 ∧ ¬ lex_state.is_char then
    let r := end_current lex_state lex_data location
    .ok (r.1, .Str "", escape_state)
  else
    match lex_state with
    | .Char (some _) =>
        .ok (lex_data.push_err (location.to_error "A char must contain only one character."),
          lex_state, escape_state)
    | .Char none => .ok (lex_data, .Char (some ch), escape_state)
    | .Str val => .ok (lex_data, .Str (val.push ch), escape_state)
    | state =>
      if ch = '/' ∧ state.symbol_last = some '/' then
        let r := end_current state.clear_last_symbol lex_data location
        .ok (r.1.set_end_line, r.2, escape_state)
      else if ch = '.' ∧ ((match state with
          | .Identifier ident => !(ident.contains '.') && ident.is_number
          | _ => false : Bool) = true) then
        (match state with
         | .Identifier ident => .ok (lex_data, .Identifier (ident.push '.'), escape_state)
         | _ => .error "unreachable guard")
      else if (ch = '+' ∨ ch = '-') ∧ ((match state with
          | .Identifier ident =>
              !(ident.contains '-') && !(ident.contains '+') && ident.last_is_exp
          | _ => false : Bool) = true) then
        (match state with
         | .Identifier ident => .ok (lex_data, .Identifier (ident.push ch), escape_state)
         | _ => .error "unreachable guard")
      else if op_chars.contains ch then
        (match state with
         | .Symbols symbol_state =>
            let r := symbol_state.push ch
            let d1 := match r.2.2 with
              | some msg => lex_data.push_err (location.to_warning msg)
              | none => lex_data
            let d2 := match r.2.1 with
              | some sz => d1.push_token (Token.from_symbol sz.2 sz.1 location)
              | none => d1
            .ok (d2, .Symbols r.1, escape_state)
         | st =>
            let r := end_current st lex_data location
            .ok (r.1, .Symbols (SymbolState.new ch), escape_state))
      else if ch.isWhitespace then
        let r := end_current state lex_data location
        .ok (r.1, r.2, escape_state)
      else if (match state with | .Identifier _ => true | _ => false) = true ∧
          (ch.isAlphanum ∨ ch ∈ ['_', '.', '+', '-']) then
        (match state with
         | .Identifier ident => .ok (lex_data, .Identifier (ident.push ch), escape_state)
         | _ => .error "unreachable guard")
      else if ch.isAlphanum ∨ ch = '_' then
        (match state with
         | .Symbols symb =>
            if symb.last = some '.' ∧ ch.isDigit then
              let r := end_current (.Symbols symb.clear_last) lex_data location
              .ok (r.1, .Identifier ⟨String.mk ['0', '.', ch]⟩, escape_state)
            else
              let r := end_current state lex_data location
              .ok (r.1, .Identifier ⟨String.singleton ch⟩, escape_state)
         | _ =>
            let r := end_current state lex_data location
            .ok (r.1, .Identifier ⟨String.singleton ch⟩, escape_state))
      else
        .ok (lex_data.push_err (location.to_error
          ("Character " ++ sq ++ String.singleton ch ++ sq ++
           " not supported in context of a " ++ sq ++ state.repr ++ sq ++ ".")),
          state, escape_state)

/-- The per-character loop of `lex_line` (`lex_content.rs:180-193`): process
each character of the trimmed line, advancing the column and stopping early
when a line comment set the end-of-line flag. -/
def lex_line_loop : List Char → Nat → Nat → Location → LexingData → LexingState →
    EscapeState → Except String (Location × LexingData × LexingState × EscapeState)
  | [], _, _, loc, d, st, esc => .ok (loc, d, st, esc)
  | ch :: rest, idx, last, loc, d, st, esc =>
    match lex_char ch loc d st esc (idx = last) with
    | .error p => .error p
    | .ok (d1, st1, esc1) =>
        let loc1 := loc.incr_col
        if d1.is_end_line then .ok (loc1, d1, st1, esc1)
        else lex_line_loop rest (idx + 1) last loc1 d1 st1 esc1

/-- Embedding of `lex_line` (`lex_content.rs:167-206`): trim the line, run
the character loop, then close the pending token only when the escape state
is not `Single`, and reset the state to the default only when the trimmed
line does not end in `\` (pushing a suggestion when whitespace follows the
`\`).  As in the source, `last` is the byte length minus one while the loop
index counts characters. -/
def lex_line (line : String) (location : Location) (lex_data : LexingData)
    (lex_state : LexingState) : Except String (Location × LexingData × LexingState) :=
  let d := lex_data.newline
  let trimed := St.trim_end line
  if trimed.data.isEmpty then .ok (location, d, lex_state)
  else
    let last := rust_len trimed - 1
    match lex_line_loop trimed.data 0 last location d lex_state .False with
    | .error p => .error p
    | .ok (loc1, d1, st1, esc1) =>
        let r := if esc1 ≠ .Single then end_current st1 d1 loc1 else (d1, st1)
        if trimed.data.getLast? = some (Char.ofNat 92) then
          let d2 :=
            if (line.data.getLast?.map Char.isWhitespace).getD false then
              r.1.push_err (loc1.to_suggestion
                ("found white space after " ++ sq ++ "\\" ++ sq ++
                 " at EOL. Please remove the space."))
            else r.1
          .ok (loc1, d2, r.2)
        else .ok (loc1, r.1, .StartOfLine)

end St

/-! ## Claim theorems: C6 -/

/-- Claim C6 (counterexample): lexing the identifier `_Bool` emits a
deprecation warning whose message is
`"Underscore operators are deprecated since C23. Consider using the new keyword: bool"`,
not the claimed `"Underscore operators are deprecated since C23. Consider using bool"`. -/
theorem from_identifier_ubool_message :
    (St.Token.from_identifier St.LexingData.init ⟨"_Bool"⟩ ⟨"main.c", 1, 6⟩).1.errors =
      [(Location.mk "main.c" 1 1).to_warning
        "Underscore operators are deprecated since C23. Consider using the new keyword: bool"] ∧
    "Underscore operators are deprecated since C23. Consider using the new keyword: bool" ≠
      "Underscore operators are deprecated since C23. Consider using bool" := by
  exact ⟨rfl, by decide⟩

/-- Claim C6 (amended): lexing the identifier `_Bool` produces a token whose
value is `Keyword(Bool)` together with exactly one `Warning`-level
diagnostic, located at the start of the original identifier (the current
location rewound by its length), whose message is
`"Underscore operators are deprecated since C23. Consider using the new keyword: bool"`. -/
theorem from_identifier_ubool_spec :
    ∀ (d : St.LexingData) (loc : Location),
      St.Token.from_identifier d ⟨"_Bool"⟩ loc =
        (d.push_err ((St.into_past_with_length loc 5).to_warning
            "Underscore operators are deprecated since C23. Consider using the new keyword: bool"),
          ⟨St.into_past_with_length loc 5, St.TokenValue.Keyword St.Keyword.Bool⟩) ∧
      (d.push_err ((St.into_past_with_length loc 5).to_warning
          "Underscore operators are deprecated since C23. Consider using the new keyword: bool")).errors =
        d.errors ++ [(St.into_past_with_length loc 5).to_warning
          "Underscore operators are deprecated since C23. Consider using the new keyword: bool"] ∧
      ((St.into_past_with_length loc 5).to_warning
          "Underscore operators are deprecated since C23. Consider using the new keyword: bool").err_lvl =
        ErrorLevel.Warning := by
  intro d loc
  refine ⟨?_, rfl, rfl⟩
  show St.Token.from_identifier d ⟨"_Bool"⟩ loc = _
  rfl

/-! ## Claim theorems: C5 -/

/-- Claim C5: at end of line, `lex_line` calls `end_current` only when the
escape state is not `Single`, and resets the state to the default only when
the trimmed line does not end in `\`.  So for a line whose character loop
ends with escape state `Single` and a trailing `\`, the `LexingState` and
the in-progress token are preserved across the newline (only an optional
whitespace suggestion is added); for a line not ending in `\` the pending
token is closed by `end_current` and the state is reset to `StartOfLine`. -/
theorem lex_line_backslash_continuation :
    ∀ (line : String) (loc loc1 : Location) (d d1 : St.LexingData)
      (st st1 : St.LexingState) (esc1 : St.EscapeState),
      St.lex_line_loop (St.trim_end line).data 0 (rust_len (St.trim_end line) - 1)
          loc d.newline st St.EscapeState.False = Except.ok (loc1, d1, st1, esc1) →
      (St.trim_end line).data.isEmpty = false →
      ((esc1 = St.EscapeState.Single →
          (St.trim_end line).data.getLast? = some (Char.ofNat 92) →
          St.lex_line line loc d st =
            Except.ok (loc1,
              (if (line.data.getLast?.map Char.isWhitespace).getD false then
                d1.push_err (loc1.to_suggestion
                  ("found white space after " ++ sq ++ "\\" ++ sq ++
                   " at EOL. Please remove the space."))
              else d1), st1)) ∧
       ((St.trim_end line).data.getLast? ≠ some (Char.ofNat 92) →
          esc1 ≠ St.EscapeState.Single →
          St.lex_line line loc d st =
            Except.ok (loc1, (St.end_current st1 d1 loc1).1,
              St.LexingState.StartOfLine))) := by
  intro line loc loc1 d d1 st st1 esc1 hloop hne
  constructor
  · intro hesc hlast
    subst hesc
    simp only [St.lex_line, hne, Bool.false_eq_true, if_false, hloop, hlast, ne_eq,
      not_true_eq_false, if_true, if_pos rfl]
  · intro hlast hesc
    simp only [St.lex_line, hne, Bool.false_eq_true, if_false, hloop, if_pos hesc,
      if_neg hlast]

/-- Witness for C5: the line `ab\` (identifier in progress, then a
line-continuation backslash) keeps the state `Identifier "ab"` and emits no
token; the line `ab` closes the identifier into a token and resets the
state. -/
theorem lex_line_backslash_continuation_witness :
    St.lex_line "ab\\" ⟨"main.c", 1, 1⟩ St.LexingData.init St.LexingState.StartOfLine =
      Except.ok (⟨"main.c", 1, 4⟩, St.LexingData.init,
        St.LexingState.Identifier ⟨"ab"⟩) ∧
    St.lex_line "ab" ⟨"main.c", 1, 1⟩ St.LexingData.init St.LexingState.StartOfLine =
      Except.ok (⟨"main.c", 1, 3⟩,
        (St.end_current (St.LexingState.Identifier ⟨"ab"⟩) St.LexingData.init
          ⟨"main.c", 1, 3⟩).1,
        St.LexingState.StartOfLine) := by
  constructor
  · have h := (lex_line_backslash_continuation "ab\\" ⟨"main.c", 1, 1⟩ ⟨"main.c", 1, 4⟩
      St.LexingData.init St.LexingData.init St.LexingState.StartOfLine
      (St.LexingState.Identifier ⟨"ab"⟩) St.EscapeState.Single
      (by decide) (by decide)).1 rfl (by decide)
    simpa using h
  · have h := (lex_line_backslash_continuation "ab" ⟨"main.c", 1, 1⟩ ⟨"main.c", 1, 3⟩
      St.LexingData.init St.LexingData.init St.LexingState.StartOfLine
      (St.LexingState.Identifier ⟨"ab"⟩) St.EscapeState.False
      (by decide) (by decide)).2 (by decide) (by decide)
    exact h

/-! ## The parser (`src/parser/...`)

`handle_comma` (`parser/symbols/handlers.rs`) is in the sources; the AST
node type `Node` (`parser/tree/node.rs`), `BinaryOperator`
(`parser/tree/binary.rs`) and the operator-insertion engine `push_op` are
not, and are modelled from the spec. -/

namespace Ps

/-- Embedding of `Associativity` (`parser/tree/operator.rs`, fixed by its
uses in `unary.rs`/`ternary.rs`). -/
inductive Associativity where
  | LeftToRight
  | RightToLeft
deriving Repr, DecidableEq

/-- Embedding of `UnaryOperator` (`parser/tree/unary.rs:24-37`). -/
inductive UnaryOperator where
  | AddressOf
  | BitwiseNot
  | Indirection
  | LogicalNot
  | Minus
  | Plus
  | PostfixDecrement
  | PostfixIncrement
  | PrefixDecrement
  | PrefixIncrement
deriving Repr, DecidableEq

/-- Embedding of `UnaryOperator::associativity` (`unary.rs:40-51`). -/
def UnaryOperator.associativity : UnaryOperator → Associativity
  | .PostfixIncrement | .PostfixDecrement => .LeftToRight
  | _ => .RightToLeft

/-- Embedding of `UnaryOperator::precedence` (`unary.rs:54-66`). -/
def UnaryOperator.precedence : UnaryOperator → Nat
  | .PostfixIncrement | .PostfixDecrement => 1
  | _ => 2

/-- Embedding of `TernaryOperator::precedence` (`parser/types/ternary.rs:54-56`). -/
def ternary_operator_precedence : Nat := 13

/-- Embedding of `TernaryOperator::associativity` (`ternary.rs:50-52`). -/
def ternary_operator_associativity : Associativity := .RightToLeft

/-- Modelled from the spec: `BinaryOperator` (`parser/tree/binary.rs`, not
under `src/`); a representative subset with the standard C precedences, the
comma operator being the one the claims exercise. -/
inductive BinaryOperator where
  | Comma
  | Assign
  | Add
  | Multiply
deriving Repr, DecidableEq

/-- Modelled from the spec: binary operator precedences (C table). -/
def BinaryOperator.precedence : BinaryOperator → Nat
  | .Comma => 15
  | .Assign => 14
  | .Add => 4
  | .Multiply => 3

/-- Modelled from the spec: binary operator associativities. -/
def BinaryOperator.associativity : BinaryOperator → Associativity
  | .Assign => .RightToLeft
  | _ => .LeftToRight

/-- Modelled from the spec: `Literal` (`parser/types/literal.rs`, not under
`src/`); the six shapes listed by the spec AST model. -/
inductive Literal where
  | Number : Number → Literal
  | Str : String → Literal
  | Char : Char → Literal
  | Ident : String → Literal
  | ConstantBool : Bool → Literal
  | Nullptr : Literal
deriving Repr, DecidableEq

/-- Modelled from the spec: the AST node type `Node` (`parser/tree/node.rs`,
not under `src/`); the spec §3 node flavours, with optional right-hand
operands still to be filled and an open/closed flag on list initialisers. -/
inductive Node where
  | Empty : Node
  | Leaf : Literal → Node
  | Unary : UnaryOperator → Option Node → Node
  | Binary : BinaryOperator → Node → Option Node → Node
  | Ternary : Node → Node → Option Node → Node
  | FunctionCall : String → List Node → Node
  | ListInitialiser : List Node → Bool → Node
  | Block : List Node → Node
  | ParensBlock : Node → Node

mutual

/-- Modelled from the spec: `Node::apply_to_last_list_initialiser`
(`parser/tree/node.rs`, not under `src/`): walk the rightmost frontier of
the in-progress AST looking for the most recently opened (non-full) list
initialiser; apply `f` to its element vector if found, fail otherwise. -/
def Node.apply_to_last_list_initialiser (n : Node)
    (f : List Node → Bool → List Node) : Option Node :=
  match n with
  | .Empty => none
  | .Leaf _ => none
  | .Unary op arg =>
      match arg with
      | some a => (a.apply_to_last_list_initialiser f).map (fun a1 => .Unary op (some a1))
      | none => none
  | .Binary op lhs rhs =>
      match rhs with
      | some r => (r.apply_to_last_list_initialiser f).map (fun r1 => .Binary op lhs (some r1))
      | none => none
  | .Ternary cond succ fail =>
      match fail with
      | some fl => (fl.apply_to_last_list_initialiser f).map (fun f1 => .Ternary cond succ (some f1))
      | none => (succ.apply_to_last_list_initialiser f).map (fun s1 => .Ternary cond s1 none)
  | .FunctionCall name args =>
      (apply_to_last_list_initialiser_list args f).map (fun l1 => .FunctionCall name l1)
  | .ListInitialiser elts full =>
      if full then none
      else
        match apply_to_last_list_initialiser_list elts f with
        | some l1 => some (.ListInitialiser l1 full)
        | none => some (.ListInitialiser (f elts full) full)
  | .Block stmts => (apply_to_last_list_initialiser_list stmts f).map .Block
  | .ParensBlock _ => none

/-- The list part of `apply_to_last_list_initialiser`: only the last element
belongs to the rightmost frontier. -/
def apply_to_last_list_initialiser_list (l : List Node)
    (f : List Node → Bool → List Node) : Option (List Node) :=
  match l with
  | [] => none
  | [x] => (x.apply_to_last_list_initialiser f).map (fun x1 => [x1])
  | x :: xs => (apply_to_last_list_initialiser_list xs f).map (fun l1 => x :: l1)

end

mutual

/-- Whether the rightmost frontier of the AST contains an open (non-full)
list initialiser — the success condition of
`apply_to_last_list_initialiser`. -/
def has_open_li : Node → Bool
  | .Empty => false
  | .Leaf _ => false
  | .Unary _ arg => match arg with | some a => has_open_li a | none => false
  | .Binary _ _ rhs => match rhs with | some r => has_open_li r | none => false
  | .Ternary _ succ fail =>
      match fail with | some fl => has_open_li fl | none => has_open_li succ
  | .FunctionCall _ args => has_open_li_list args
  | .ListInitialiser _ full => !full
  | .Block stmts => has_open_li_list stmts
  | .ParensBlock _ => false

/-- List part of `has_open_li`: only the last element. -/
def has_open_li_list : List Node → Bool
  | [] => false
  | [x] => has_open_li x
  | _ :: xs => has_open_li_list xs

end

mutual

/-- The node obtained by pushing one `Empty` hole into the element vector of
the last open list initialiser (meaningful when `has_open_li` holds). -/
def append_empty : Node → Node
  | .Empty => .Empty
  | .Leaf l => .Leaf l
  | .Unary op arg =>
      match arg with
      | some a => .Unary op (some (append_empty a))
      | none => .Unary op none
  | .Binary op lhs rhs =>
      match rhs with
      | some r => .Binary op lhs (some (append_empty r))
      | none => .Binary op lhs none
  | .Ternary cond succ fail =>
      match fail with
      | some fl => .Ternary cond succ (some (append_empty fl))
      | none => .Ternary cond (append_empty succ) none
  | .FunctionCall name args => .FunctionCall name (append_empty_list args)
  | .ListInitialiser elts full =>
      if full then .ListInitialiser elts full
      else
        if has_open_li_list elts then .ListInitialiser (append_empty_list elts) full
        else .ListInitialiser (elts ++ [Node.Empty]) full
  | .Block stmts => .Block (append_empty_list stmts)
  | .ParensBlock inner => .ParensBlock inner

/-- List part of `append_empty`: only the last element. -/
def append_empty_list : List Node → List Node
  | [] => []
  | [x] => [append_empty x]
  | x :: xs => x :: append_empty_list xs

end

/-- Modelled from the spec: `Node::push_op` for a binary operator (spec
§4.6): walk the right spine and find the deepest node above which the
operator may sit given precedence and associativity; the new node exposes a
fresh hole as its right child. -/
def Node.push_op (op : BinaryOperator) : Node → Except String Node
  | .Empty => .error "operator with no left operand"
  | .Binary op2 lhs rhs =>
      match rhs with
      | some r =>
          if op.precedence < op2.precedence ∨
              (op.precedence = op2.precedence ∧ op.associativity = .RightToLeft) then
            (Node.push_op op r).map (fun r1 => .Binary op2 lhs (some r1))
          else .ok (.Binary op (.Binary op2 lhs (some r)) none)
      | none => .error "operator with no left operand"
  | other => .ok (.Binary op other none)

/-- Embedding of `handle_comma` (`parser/symbols/handlers.rs:5-13`): first
try to push an `Empty` hole into the last open list initialiser; only when
that fails insert the comma binary operator through `push_op`. -/
def handle_comma (current : Node) : Except String Node :=
  match current.apply_to_last_list_initialiser (fun vec _ => vec ++ [Node.Empty]) with
  | some n => .ok n
  | none => Node.push_op BinaryOperator.Comma current

mutual

/-- `apply_to_last_list_initialiser` with the `Empty`-pushing closure
succeeds exactly on ASTs whose frontier holds an open list initialiser, and
then pushes one `Empty` hole into that list. -/
theorem apply_atli_characterisation (n : Node) :
    n.apply_to_last_list_initialiser (fun vec _ => vec ++ [Node.Empty]) =
      (if has_open_li n then some (append_empty n) else none) := by
  cases n with
  | Empty => rfl
  | Leaf l => rfl
  | Unary op arg =>
      cases arg with
      | none => rfl
      | some a =>
          simp only [Node.apply_to_last_list_initialiser, has_open_li, append_empty,
            apply_atli_characterisation a]
          cases has_open_li a <;> simp
  | Binary op lhs rhs =>
      cases rhs with
      | none => rfl
      | some r =>
          simp only [Node.apply_to_last_list_initialiser, has_open_li, append_empty,
            apply_atli_characterisation r]
          cases has_open_li r <;> simp
  | Ternary cond succ fail =>
      cases fail with
      | none =>
          simp only [Node.apply_to_last_list_initialiser, has_open_li, append_empty,
            apply_atli_characterisation succ]
          cases has_open_li succ <;> simp
      | some fl =>
          simp only [Node.apply_to_last_list_initialiser, has_open_li, append_empty,
            apply_atli_characterisation fl]
          cases has_open_li fl <;> simp
  | FunctionCall name args =>
      simp only [Node.apply_to_last_list_initialiser, has_open_li, append_empty,
        apply_atli_list_characterisation args]
      cases has_open_li_list args <;> simp
  | ListInitialiser elts full =>
      cases full with
      | true => rfl
      | false =>
          simp only [Node.apply_to_last_list_initialiser, has_open_li, append_empty,
            apply_atli_list_characterisation elts]
          cases has_open_li_list elts <;> simp
  | Block stmts =>
      simp only [Node.apply_to_last_list_initialiser, has_open_li, append_empty,
        apply_atli_list_characterisation stmts]
      cases has_open_li_list stmts <;> simp
  | ParensBlock inner => rfl

/-- List version of `apply_atli_characterisation`. -/
theorem apply_atli_list_characterisation (l : List Node) :
    apply_to_last_list_initialiser_list l (fun vec _ => vec ++ [Node.Empty]) =
      (if has_open_li_list l then some (append_empty_list l) else none) := by
  match l with
  | [] => rfl
  | [x] =>
      simp only [apply_to_last_list_initialiser_list, has_open_li_list, append_empty_list,
        apply_atli_characterisation x]
      cases has_open_li x <;> simp
  | x :: y :: ys =>
      simp only [apply_to_last_list_initialiser_list, has_open_li_list, append_empty_list,
        apply_atli_list_characterisation (y :: ys)]
      cases has_open_li_list (y :: ys) <;> simp

end

end Ps

/-! ## Claim theorems: C8 -/

/-- Claim C8: `handle_comma` performs exactly one of two effects — when the
AST frontier holds an open (last) list initialiser, a new `Empty` hole is
pushed into that list's element vector; otherwise the comma binary operator
is inserted via `push_op`. -/
theorem handle_comma_dispatch :
    ∀ n : Ps.Node,
      (Ps.has_open_li n = true → Ps.handle_comma n = Except.ok (Ps.append_empty n)) ∧
      (Ps.has_open_li n = false →
        Ps.handle_comma n = Ps.Node.push_op Ps.BinaryOperator.Comma n) := by
  intro n
  constructor <;> intro h <;>
    simp only [Ps.handle_comma, Ps.apply_atli_characterisation n, h, if_true, if_false,
      Bool.false_eq_true]

/-- Witness for C8: a `x = { a,` AST (assignment whose right operand is an
open list initialiser) gets a fresh `Empty` hole appended; a plain leaf has
no open initialiser and receives the comma operator through `push_op`. -/
theorem handle_comma_dispatch_witness :
    Ps.handle_comma
        (Ps.Node.Binary Ps.BinaryOperator.Assign (Ps.Node.Leaf (Ps.Literal.Ident "x"))
          (some (Ps.Node.ListInitialiser [Ps.Node.Leaf (Ps.Literal.Ident "a")] false))) =
      Except.ok
        (Ps.Node.Binary Ps.BinaryOperator.Assign (Ps.Node.Leaf (Ps.Literal.Ident "x"))
          (some (Ps.Node.ListInitialiser
            [Ps.Node.Leaf (Ps.Literal.Ident "a"), Ps.Node.Empty] false))) ∧
    Ps.handle_comma (Ps.Node.Leaf (Ps.Literal.Ident "x")) =
      Ps.Node.push_op Ps.BinaryOperator.Comma (Ps.Node.Leaf (Ps.Literal.Ident "x")) ∧
    Ps.Node.push_op Ps.BinaryOperator.Comma (Ps.Node.Leaf (Ps.Literal.Ident "x")) =
      Except.ok (Ps.Node.Binary Ps.BinaryOperator.Comma
        (Ps.Node.Leaf (Ps.Literal.Ident "x")) none) := by
  refine ⟨?_, ?_, ?_⟩
  · have h := (handle_comma_dispatch
      (Ps.Node.Binary Ps.BinaryOperator.Assign (Ps.Node.Leaf (Ps.Literal.Ident "x"))
        (some (Ps.Node.ListInitialiser [Ps.Node.Leaf (Ps.Literal.Ident "a")] false)))).1
      (by simp [Ps.has_open_li, Ps.has_open_li_list])
    rw [h]
    simp [Ps.append_empty, Ps.append_empty_list, Ps.has_open_li, Ps.has_open_li_list]
  · exact (handle_comma_dispatch (Ps.Node.Leaf (Ps.Literal.Ident "x"))).2
      (by simp [Ps.has_open_li])
  · simp [Ps.Node.push_op]

end Ccomp
